import Mathlib

/-
  Verification development for the SleepyDrive boot sequence
  (cmd package, `rootCmdRun` and the `rootCommand` pre-run hook).

  The model is a shallow embedding: the boot sequence is translated into a
  pure function from the CLI flags, the loaded configuration, and an oracle
  of effect outcomes (directory creation, log rotation, listener binds,
  capture-device operations) to an observable trace of events plus a final
  outcome.  Background goroutines (the pprof profiler, the autocert
  challenge responder, the capture loop) are modelled as separate pure
  functions whose event traces are collected in a `background` field,
  mirroring the fact that the Go code never reads their results.
-/

set_option linter.unusedVariables false

namespace SleepyDrive

/-- TLS section of the API configuration (`config.Get().Api.Ssl`): the
`Enabled` flag and the certificate/key file paths used at the
`ListenAndServeTLS(api.Ssl.CertificateFile, api.Ssl.KeyFile)` call. -/
structure SslConfig where
  enabled : Bool
  certificateFile : String
  keyFile : String
  deriving DecidableEq, Repr

/-- API section of the configuration (`config.Get().Api`): bind host, bind
port and the TLS settings. -/
structure ApiConfig where
  host : String
  port : Nat
  ssl : SslConfig
  deriving DecidableEq, Repr

/-- System section of the configuration (`config.Get().System`): the
directories the boot sequence touches. -/
structure SystemConfig where
  rootDirectory : String
  logDirectory : String
  archiveDirectory : String
  backupDirectory : String
  deriving DecidableEq, Repr

/-- The resolved configuration snapshot consumed by the boot sequence. -/
structure Config where
  api : ApiConfig
  system : SystemConfig
  deriving DecidableEq, Repr

/-- CLI flags registered in `init()` that `rootCmdRun` and the pre-run hook
read.  An absent `tls-hostname` flag is its registered default `""`. -/
structure Flags where
  autoTls : Bool
  tlsHostname : String
  pprof : Bool
  pprofBlockRate : Int
  pprofPort : Nat
  ignoreCertificateErrors : Bool
  deriving DecidableEq, Repr

/-- State of a `tls.Config` object as far as the boot sequence mutates it:
whether a `GetCertificate` callback has been installed and the `NextProtos`
ALPN list. -/
structure TLSConfigState where
  hasGetCertificate : Bool
  nextProtos : List String
  deriving DecidableEq, Repr

/-- The serving mode of the `ListenAndServe` / `ListenAndServeTLS` call that
blocks the main path; it corresponds to the three TLS strategies of the
specification (`Automatic`, `Manual`, `None`). -/
inductive ServeMode where
  | autoTLS (hostname : String)
  | manualTLS (certFile keyFile : String)
  | plain
  deriving DecidableEq, Repr

/-- Observable events of the boot sequence.  Log calls carry their message;
directory creations, goroutine spawns and the blocking listen call are
tagged by their call site.  The listen event records the `TLSConfig` the
server object holds at the moment of the call (`none` models a nil
`TLSConfig`). -/
inductive Event where
  | debug (msg : String)
  | info (msg : String)
  | warn (msg : String)
  | logError (msg : String)
  | fatal (msg : String)
  | setInsecureTransport
  | mkdirInstall (dir : String)
  | printUsage
  | printConfigNotice
  | mkdirArchive (dir : String)
  | mkdirBackup (dir : String)
  | setBlockProfileRate (r : Int)
  | setMutexProfileFraction (n : Nat)
  | spawnProfiler (port : Nat)
  | setTLSGetCertificate
  | appendALPN
  | spawnChallengeServer
  | spawnCapture
  | foundFaces (n : Nat)
  | listen (mode : ServeMode) (tls : Option TLSConfigState)
  deriving DecidableEq, Repr

/-- Whether an event is the blocking bind/serve call of the main listener. -/
def Event.isListen : Event → Bool
  | Event.listen _ _ => true
  | _ => false

/-- Whether an event is a warning-level log line. -/
def Event.isWarn : Event → Bool
  | Event.warn _ => true
  | _ => false

/-- Whether an event is a fatal-level log line (apex `log.Fatal`, which
terminates the process). -/
def Event.isFatal : Event → Bool
  | Event.fatal _ => true
  | _ => false

/-- Whether an event is the spawn of the capture goroutine. -/
def Event.isSpawnCapture : Event → Bool
  | Event.spawnCapture => true
  | _ => false

/-- Whether an event is the spawn of the pprof profiler goroutine. -/
def Event.isSpawnProfiler : Event → Bool
  | Event.spawnProfiler _ => true
  | _ => false

/-- Whether an event is the mutation of the process-wide default transport
to skip certificate verification. -/
def Event.isSetInsecureTransport : Event → Bool
  | Event.setInsecureTransport => true
  | _ => false

/-- Whether an event is a network bind (main listener, profiler endpoint,
autocert challenge responder) or a Directory Provisioner creation (archive
or backup directory). -/
def Event.isBindOrProvision : Event → Bool
  | Event.listen _ _ => true
  | Event.spawnProfiler _ => true
  | Event.spawnChallengeServer => true
  | Event.mkdirArchive _ => true
  | Event.mkdirBackup _ => true
  | _ => false

/-- Final outcome of the main execution path: either blocked serving under a
mode, or terminated by a fatal log call. -/
inductive Outcome where
  | serving (mode : ServeMode)
  | fatalExit
  deriving DecidableEq, Repr

/-- State of the process-wide `http.DefaultTransport` TLS client
configuration.  The Go default leaves `TLSClientConfig` nil, i.e. normal
certificate verification. -/
structure Transport where
  insecureSkipVerify : Bool
  deriving DecidableEq, Repr

/-- Result of one run of the boot sequence: the main-path event trace, the
events of the spawned background goroutines, the final outcome of the main
path, and the final state of the process-wide default transport. -/
structure RunResult where
  events : List Event
  background : List Event
  outcome : Outcome
  transport : Transport
  deriving DecidableEq, Repr

/-- Per-iteration oracle for the capture loop: whether `webcam.Read`
succeeded, whether the frame matrix is empty, how many faces the classifier
reports, and the value returned by `window.WaitKey(1)`. -/
structure FrameStep where
  readOk : Bool
  frameEmpty : Bool
  faces : Nat
  waitKey : Int
  deriving DecidableEq, Repr

/-- Oracle for the capture goroutine: device-open outcome, classifier-load
outcome, and the finite stream of frame iterations observed before the
process ends. -/
structure CaptureOracle where
  deviceOpenOk : Bool
  classifierLoadOk : Bool
  frames : List FrameStep
  deriving DecidableEq, Repr

/-- Oracle of effect outcomes for one boot: each fallible side-effecting
call of `rootCmdRun` gets the outcome the operating system would give it.
`defaultTLSConfig` is the initial state of `config.DefaultTLSConfig` (the
config package is not part of the modelled source, so it is universally
quantified rather than fixed). -/
structure BootEnv where
  enableLogRotationOk : Bool
  writeToDiskOk : Bool
  mkdirArchiveOk : Bool
  mkdirBackupOk : Bool
  listenOk : Bool
  profilerBindOk : Bool
  challengeBindOk : Bool
  defaultTLSConfig : TLSConfigState
  capture : CaptureOracle
  deriving DecidableEq, Repr

/-- ALPN protocol identifier appended for TLS-ALPN ACME challenges
(`acme.ALPNProto`). -/
def acmeALPNProto : String := "acme-tls/1"

def insecureWarnMsg : String :=
  "running with ignore-certificate-errors: TLS certificate host chains and name will not be verified"

def rotationFatalMsg : String := "failed to configure log rotation on the system"

def writeFatalMsg : String := "failed to write configuration to disk"

def archiveErrMsg : String := "failed to create archive directory"

def backupErrMsg : String := "failed to create backup directory"

def webserverInfoMsg : String := "configuring internal webserver"

def autoTlsInfoMsg : String := "webserver is now listening with auto-TLS enabled"

def autoTlsFatalMsg : String := "failed to configure HTTP server using auto-tls"

def httpsFatalMsg : String := "failed to configure HTTPS server"

def httpFatalMsg : String := "failed to configure HTTP server"

def challengeErrMsg : String := "failed to serve autocert http server"

def deviceErrMsg : String := "failed to open capture device"

def classifierErrMsg : String := "failed reading cascade file"

def cameraErrMsg : String := "cannot read device"

/-- Body of the pprof profiler goroutine: a single
`http.ListenAndServe("localhost:port", nil)` whose returned error is
discarded — the goroutine logs nothing in either case and simply returns
when the bind fails. -/
structure ProfilerResult where
  events : List Event
  exitedEarly : Bool
  deriving DecidableEq, Repr

/-- Profiler goroutine (the `go func(){ http.ListenAndServe(...) }()` body):
on a successful bind it blocks serving; on a failed bind it returns.  The
error value is dropped on the floor, so no event is emitted either way. -/
def profilerTask (port : Nat) (bindOk : Bool) : ProfilerResult :=
  if bindOk then { events := [], exitedEarly := false }
  else { events := [], exitedEarly := true }

/-- One iteration of the capture loop: `webcam.Read` (log an error on
failure, then fall through), skip the rest when the frame is empty,
otherwise detect faces, annotate, show the window and break exactly when
`window.WaitKey(1)` is non-negative.  Returns the iteration's events and
whether the loop breaks. -/
def captureStep (f : FrameStep) : List Event × Bool :=
  let readEv : List Event := if f.readOk then [] else [Event.logError cameraErrMsg]
  if f.frameEmpty then (readEv, false)
  else
    let bodyEv := readEv ++ [Event.foundFaces f.faces]
    if 0 ≤ f.waitKey then (bodyEv, true) else (bodyEv, false)

/-- The `for { ... }` frame loop, run over the finite stream of iteration
oracles.  The Boolean result records whether the loop exited via `break`
(user interrupt); `false` means the loop was still running when the stream
ended. -/
def captureLoop : List FrameStep → List Event × Bool
  | [] => ([], false)
  | f :: rest =>
    if (captureStep f).2 then ((captureStep f).1, true)
    else ((captureStep f).1 ++ (captureLoop rest).1, (captureLoop rest).2)

/-- Exit condition of the capture goroutine. -/
inductive CaptureExit where
  | deviceFailure
  | userInterrupt
  | running
  deriving DecidableEq, Repr

/-- Result of the capture goroutine: its log events and how it ended. -/
structure CaptureResult where
  events : List Event
  exit : CaptureExit
  deriving DecidableEq, Repr

/-- The capture goroutine body: open the device (log and return on
failure), load the cascade classifier (log on failure and continue in
degraded mode), then run the frame loop. -/
def captureTask (o : CaptureOracle) : CaptureResult :=
  if o.deviceOpenOk then
    { events := (if o.classifierLoadOk then [] else [Event.logError classifierErrMsg])
        ++ (captureLoop o.frames).1,
      exit := if (captureLoop o.frames).2 then CaptureExit.userInterrupt else CaptureExit.running }
  else
    { events := [Event.logError deviceErrMsg], exit := CaptureExit.deviceFailure }

/-- Final state of `http.DefaultTransport` after the flag check at the top
of `rootCmdRun`: the `TLSClientConfig` is replaced by an
`InsecureSkipVerify` configuration exactly when `ignore-certificate-errors`
is set, and left at the Go default otherwise. -/
def transportAfterFlags (flags : Flags) : Transport :=
  if flags.ignoreCertificateErrors then { insecureSkipVerify := true }
  else { insecureSkipVerify := false }

/-- Events of `rootCmdRun` up to the system-user info log: the debug line,
the configuration-file info line, the optional insecure-transport warning
and mutation, and the timezone/user info lines. -/
def earlyEvents (flags : Flags) : List Event :=
  [Event.debug "running in debug mode", Event.info "loading configuration from file"]
  ++ (if flags.ignoreCertificateErrors then
        [Event.warn insecureWarnMsg, Event.setInsecureTransport]
      else [])
  ++ [Event.info "configured sleepydrive with system timezone",
      Event.info "checking for pterodactyl system user",
      Event.info "configured system user successfully"]

/-- The auto-TLS downgrade of `rootCmdRun`: `autotls` is read from the
flag, then set to `false` (with no log call) when the hostname flag is
empty. -/
def effectiveAutoTls (flags : Flags) : Bool :=
  if flags.autoTls && flags.tlsHostname == "" then false else flags.autoTls

/-- Events of `rootCmdRun` from after the configuration write up to (and
excluding) the strategy branch: the two independent directory creations
with their error logs, the webserver info line, and the profiler setup
(block rate, mutex fraction, goroutine spawn) when `pprof` is set. -/
def preListenEvents (flags : Flags) (cfg : Config) (env : BootEnv) : List Event :=
  earlyEvents flags
  ++ [Event.mkdirArchive cfg.system.archiveDirectory]
  ++ (if env.mkdirArchiveOk then [] else [Event.logError archiveErrMsg])
  ++ [Event.mkdirBackup cfg.system.backupDirectory]
  ++ (if env.mkdirBackupOk then [] else [Event.logError backupErrMsg])
  ++ [Event.info webserverInfoMsg]
  ++ (if flags.pprof then
        (if 0 < flags.pprofBlockRate then [Event.setBlockProfileRate flags.pprofBlockRate] else [])
        ++ [Event.setMutexProfileFraction 100, Event.spawnProfiler flags.pprofPort]
      else [])

/-- The `tls.Config` state after the autocert hookup: `GetCertificate` is
installed and `acme.ALPNProto` is appended to `NextProtos`. -/
def autoTlsConfigState (base : TLSConfigState) : TLSConfigState :=
  { hasGetCertificate := true, nextProtos := base.nextProtos ++ [acmeALPNProto] }

/-- Events of the strategy branch of `rootCmdRun`: under auto-TLS the info
line, the `TLSConfig` mutations, the challenge-responder spawn and the
blocking TLS listen; otherwise the capture goroutine spawn followed by
either the manual-TLS listen or — after `s.TLSConfig = nil` — the plaintext
listen.  A failing listen is followed by the corresponding fatal log. -/
def serveEvents (flags : Flags) (cfg : Config) (env : BootEnv) : List Event :=
  if effectiveAutoTls flags then
    [Event.info autoTlsInfoMsg, Event.setTLSGetCertificate, Event.appendALPN,
     Event.spawnChallengeServer,
     Event.listen (ServeMode.autoTLS flags.tlsHostname)
       (some (autoTlsConfigState env.defaultTLSConfig))]
    ++ (if env.listenOk then [] else [Event.fatal autoTlsFatalMsg])
  else
    [Event.spawnCapture]
    ++ (if cfg.api.ssl.enabled then
          [Event.listen (ServeMode.manualTLS cfg.api.ssl.certificateFile cfg.api.ssl.keyFile)
             (some env.defaultTLSConfig)]
          ++ (if env.listenOk then [] else [Event.fatal httpsFatalMsg])
        else
          [Event.listen ServeMode.plain none]
          ++ (if env.listenOk then [] else [Event.fatal httpFatalMsg]))

/-- The serving mode the strategy branch blocks in, following the same
branch order as the code: auto-TLS first, then manual TLS, then plain. -/
def chosenMode (flags : Flags) (cfg : Config) : ServeMode :=
  if effectiveAutoTls flags then ServeMode.autoTLS flags.tlsHostname
  else if cfg.api.ssl.enabled then
    ServeMode.manualTLS cfg.api.ssl.certificateFile cfg.api.ssl.keyFile
  else ServeMode.plain

/-- Events of the goroutines spawned by this boot: the profiler (when
`pprof` is set), and either the autocert challenge responder (auto-TLS
path, which logs its bind error) or the capture goroutine (non-auto path). -/
def backgroundEvents (flags : Flags) (env : BootEnv) : List Event :=
  (if flags.pprof then (profilerTask flags.pprofPort env.profilerBindOk).events else [])
  ++ (if effectiveAutoTls flags then
        (if env.challengeBindOk then [] else [Event.logError challengeErrMsg])
      else (captureTask env.capture).events)

/-- The boot sequence `rootCmdRun`: the early logs and transport mutation,
then the two fatal steps (log-rotation enablement and configuration
write-back), then directory provisioning, profiler setup, strategy branch
and blocking listen.  A successful listen blocks forever (`serving`); a
failed listen is a fatal log and process exit. -/
def rootCmdRun (flags : Flags) (cfg : Config) (env : BootEnv) : RunResult :=
  if env.enableLogRotationOk = false then
    { events := earlyEvents flags ++ [Event.fatal rotationFatalMsg], background := [],
      outcome := Outcome.fatalExit, transport := transportAfterFlags flags }
  else if env.writeToDiskOk = false then
    { events := earlyEvents flags ++ [Event.fatal writeFatalMsg], background := [],
      outcome := Outcome.fatalExit, transport := transportAfterFlags flags }
  else
    { events := preListenEvents flags cfg env ++ serveEvents flags cfg env,
      background := backgroundEvents flags env,
      outcome := if env.listenOk then Outcome.serving (chosenMode flags cfg) else Outcome.fatalExit,
      transport := transportAfterFlags flags }

/-- Outcome of loading the configuration file in `initConfig`:
`os.ErrNotExist` takes the dedicated notice-and-exit path, any other error
is a generic fatal. -/
inductive ConfigLoadResult where
  | ok
  | notExist
  | otherError
  deriving DecidableEq, Repr

/-- Oracle for the pre-run hook: configuration-load outcome and the two
fallible steps of `initLogging` (install-directory creation and log-file
creation). -/
structure PreRunEnv where
  configLoad : ConfigLoadResult
  mkdirInstallOk : Bool
  logFileOk : Bool
  deriving DecidableEq, Repr

/-- Outcome of a whole CLI invocation of the root command. -/
inductive InvocationOutcome where
  | exitedConfigNotice
  | exitedConfigError
  | exitedLoggingError
  | exitedUsage
  | ran (r : RunResult)
  deriving DecidableEq, Repr

/-- A full invocation of the root command: the `PreRun` hook runs
`initConfig` then `initLogging`, then performs the auto-TLS usage check
(print a usage message and `os.Exit(1)` when `auto-tls` is set with an
empty hostname); only if all of that passes does `rootCmdRun` execute. -/
def runInvocation (flags : Flags) (pe : PreRunEnv) (cfg : Config) (env : BootEnv) :
    InvocationOutcome × List Event :=
  match pe.configLoad with
  | ConfigLoadResult.notExist => (InvocationOutcome.exitedConfigNotice, [Event.printConfigNotice])
  | ConfigLoadResult.otherError => (InvocationOutcome.exitedConfigError, [])
  | ConfigLoadResult.ok =>
    if pe.mkdirInstallOk = false then
      (InvocationOutcome.exitedLoggingError, [Event.mkdirInstall cfg.system.logDirectory])
    else if pe.logFileOk = false then
      (InvocationOutcome.exitedLoggingError, [Event.mkdirInstall cfg.system.logDirectory])
    else
      let evLog := [Event.mkdirInstall cfg.system.logDirectory,
                    Event.info "writing log files to disk"]
      if flags.autoTls && flags.tlsHostname == "" then
        (InvocationOutcome.exitedUsage, evLog ++ [Event.printUsage])
      else
        (InvocationOutcome.ran (rootCmdRun flags cfg env),
         evLog ++ (rootCmdRun flags cfg env).events)

/-- Process exit status of an invocation outcome: usage errors,
configuration errors, logging-setup errors and apex fatal logs all exit
with status 1; a serving process has not exited. -/
def exitCode : InvocationOutcome → Option Nat
  | InvocationOutcome.exitedConfigNotice => some 1
  | InvocationOutcome.exitedConfigError => some 1
  | InvocationOutcome.exitedLoggingError => some 1
  | InvocationOutcome.exitedUsage => some 1
  | InvocationOutcome.ran r =>
    match r.outcome with
    | Outcome.fatalExit => some 1
    | Outcome.serving _ => none

/-- The mode of the first listen event of a trace, if any. -/
def listenMode? : List Event → Option ServeMode
  | [] => none
  | Event.listen m _ :: _ => some m
  | _ :: es => listenMode? es

/-- The `TLSConfig` carried by the first listen event of a trace, if any. -/
def listenTLS? : List Event → Option (Option TLSConfigState)
  | [] => none
  | Event.listen _ t :: _ => some t
  | _ :: es => listenTLS? es

/-- Whether an event satisfying `p` occurs strictly before the first listen
event of the trace. -/
def startedBeforeListen (p : Event → Bool) : List Event → Bool
  | [] => false
  | e :: es =>
    if e.isListen then false
    else if p e then true
    else startedBeforeListen p es

/-- Concrete system configuration used by witnesses and counterexamples. -/
def sys0 : SystemConfig :=
  { rootDirectory := "/var/lib/sleepy", logDirectory := "/var/log/sleepy",
    archiveDirectory := "/var/lib/sleepy/archives",
    backupDirectory := "/var/lib/sleepy/backups" }

/-- Concrete configuration with manual TLS enabled. -/
def cfgSslOn : Config :=
  { api := { host := "0.0.0.0", port := 8080,
             ssl := { enabled := true, certificateFile := "/etc/certs/node.crt",
                      keyFile := "/etc/certs/node.key" } },
    system := sys0 }

/-- Concrete configuration with manual TLS disabled. -/
def cfgSslOff : Config :=
  { api := { host := "0.0.0.0", port := 8080,
             ssl := { enabled := false, certificateFile := "", keyFile := "" } },
    system := sys0 }

/-- Oracle in which every effect succeeds. -/
def envAllOk : BootEnv :=
  { enableLogRotationOk := true, writeToDiskOk := true, mkdirArchiveOk := true,
    mkdirBackupOk := true, listenOk := true, profilerBindOk := true,
    challengeBindOk := true, defaultTLSConfig := { hasGetCertificate := false, nextProtos := [] },
    capture := { deviceOpenOk := true, classifierLoadOk := true, frames := [] } }

/-- Flags of a plain invocation: no auto-TLS, no profiler, no insecure
transport. -/
def flagsPlain : Flags :=
  { autoTls := false, tlsHostname := "", pprof := false, pprofBlockRate := 0,
    pprofPort := 6060, ignoreCertificateErrors := false }

/-- Pre-run oracle in which configuration load and logging setup succeed. -/
def preOk : PreRunEnv := { configLoad := ConfigLoadResult.ok, mkdirInstallOk := true, logFileOk := true }

/-- Flags requesting auto-TLS without a hostname. -/
def flagsAutoNoHost : Flags := { flagsPlain with autoTls := true }

/-- Flags requesting auto-TLS with a hostname, with the profiler enabled. -/
def flagsAutoHost : Flags :=
  { flagsPlain with autoTls := true, tlsHostname := "example.com", pprof := true }

/-- Oracle in which only log-rotation enablement fails. -/
def envRotFail : BootEnv := { envAllOk with enableLogRotationOk := false }

/-- Flags with the pprof profiler enabled and nothing else. -/
def flagsPprof : Flags := { flagsPlain with pprof := true }

/-- Oracle whose initial `DefaultTLSConfig` already carries a certificate
callback and an ALPN protocol, to observe that the plain path clears it. -/
def envDirtyTLS : BootEnv :=
  { envAllOk with defaultTLSConfig := { hasGetCertificate := true, nextProtos := ["h2"] } }

/-- Oracle in which both Directory Provisioner creations fail. -/
def envMkdirFail : BootEnv := { envAllOk with mkdirArchiveOk := false, mkdirBackupOk := false }

end SleepyDrive

namespace SleepyDrive

theorem listenMode?_cons_skip (e : Event) (es : List Event) (h : e.isListen = false) :
    listenMode? (e :: es) = listenMode? es := by
  cases e <;> simp [listenMode?, Event.isListen] at h ⊢

theorem listenMode?_cons_listen (m : ServeMode) (t : Option TLSConfigState) (es : List Event) :
    listenMode? (Event.listen m t :: es) = some m := rfl

theorem listenMode?_append_skip (l₁ l₂ : List Event) (h : ∀ e ∈ l₁, e.isListen = false) :
    listenMode? (l₁ ++ l₂) = listenMode? l₂ := by
  induction l₁ with
  | nil => simp
  | cons e es ih =>
    rw [List.cons_append, listenMode?_cons_skip e _ (h e (by simp))]
    exact ih (fun x hx => h x (by simp [hx]))

end SleepyDrive

namespace SleepyDrive

theorem listenTLS?_cons_skip (e : Event) (es : List Event) (h : e.isListen = false) :
    listenTLS? (e :: es) = listenTLS? es := by
  cases e <;> simp [listenTLS?, Event.isListen] at h ⊢

theorem listenTLS?_cons_listen (m : ServeMode) (t : Option TLSConfigState) (es : List Event) :
    listenTLS? (Event.listen m t :: es) = some t := rfl

theorem listenTLS?_append_skip (l₁ l₂ : List Event) (h : ∀ e ∈ l₁, e.isListen = false) :
    listenTLS? (l₁ ++ l₂) = listenTLS? l₂ := by
  induction l₁ with
  | nil => simp
  | cons e es ih =>
    rw [List.cons_append, listenTLS?_cons_skip e _ (h e (by simp))]
    exact ih (fun x hx => h x (by simp [hx]))

theorem startedBeforeListen_cons (p : Event → Bool) (e : Event) (es : List Event) :
    startedBeforeListen p (e :: es) =
      if e.isListen then false else if p e then true else startedBeforeListen p es := rfl

theorem startedBeforeListen_append_skip (p : Event → Bool) (l₁ l₂ : List Event)
    (h₁ : ∀ e ∈ l₁, e.isListen = false) (h₂ : ∀ e ∈ l₁, p e = false) :
    startedBeforeListen p (l₁ ++ l₂) = startedBeforeListen p l₂ := by
  induction l₁ with
  | nil => simp
  | cons e es ih =>
    rw [List.cons_append, startedBeforeListen_cons, h₁ e (by simp), h₂ e (by simp)]
    simpa using ih (fun x hx => h₁ x (by simp [hx])) (fun x hx => h₂ x (by simp [hx]))

theorem startedBeforeListen_append_found (p : Event → Bool) (l₁ l₂ : List Event)
    (h₁ : ∀ e ∈ l₁, e.isListen = false) (h₂ : ∃ e ∈ l₁, p e = true) :
    startedBeforeListen p (l₁ ++ l₂) = true := by
  induction l₁ with
  | nil => simp at h₂
  | cons e es ih =>
    rw [List.cons_append, startedBeforeListen_cons, h₁ e (by simp)]
    rcases h₂ with ⟨x, hx, hpx⟩
    rcases List.mem_cons.mp hx with rfl | hx'
    · simp [hpx]
    · by_cases hpe : p e = true
      · simp [hpe]
      · simp only [Bool.not_eq_true] at hpe
        simp only [hpe, if_false]
        exact ih (fun y hy => h₁ y (by simp [hy])) ⟨x, hx', hpx⟩

theorem effectiveAutoTls_true_iff (flags : Flags) :
    effectiveAutoTls flags = true ↔ (flags.autoTls = true ∧ flags.tlsHostname ≠ "") := by
  cases ha : flags.autoTls <;> by_cases hh : flags.tlsHostname = "" <;>
    simp [effectiveAutoTls, ha, hh]

theorem earlyEvents_all_aux (flags : Flags) :
    (earlyEvents flags).all
      (fun e => !e.isListen && !e.isSpawnCapture && !e.isSpawnProfiler) = true := by
  cases hic : flags.ignoreCertificateErrors <;>
    simp [earlyEvents, hic, Event.isListen, Event.isSpawnCapture, Event.isSpawnProfiler]

theorem preListen_all_aux (flags : Flags) (cfg : Config) (env : BootEnv) :
    (preListenEvents flags cfg env).all
      (fun e => !e.isListen && !e.isSpawnCapture) = true := by
  cases h1 : flags.ignoreCertificateErrors <;> cases h2 : env.mkdirArchiveOk <;>
    cases h3 : env.mkdirBackupOk <;> cases h4 : flags.pprof <;>
      by_cases h5 : 0 < flags.pprofBlockRate <;>
        simp [preListenEvents, earlyEvents, h1, h2, h3, h4, h5,
          Event.isListen, Event.isSpawnCapture]

theorem preListen_no_listen (flags : Flags) (cfg : Config) (env : BootEnv) :
    ∀ e ∈ preListenEvents flags cfg env, e.isListen = false := by
  have h := preListen_all_aux flags cfg env
  rw [List.all_eq_true] at h
  intro e he
  have h' := h e he
  simp only [Bool.and_eq_true, Bool.not_eq_true'] at h'
  exact h'.1

theorem preListen_no_capture (flags : Flags) (cfg : Config) (env : BootEnv) :
    ∀ e ∈ preListenEvents flags cfg env, e.isSpawnCapture = false := by
  have h := preListen_all_aux flags cfg env
  rw [List.all_eq_true] at h
  intro e he
  have h' := h e he
  simp only [Bool.and_eq_true, Bool.not_eq_true'] at h'
  exact h'.2

theorem preListen_spawnProfiler_mem (flags : Flags) (cfg : Config) (env : BootEnv)
    (hp : flags.pprof = true) :
    Event.spawnProfiler flags.pprofPort ∈ preListenEvents flags cfg env := by
  cases h2 : env.mkdirArchiveOk <;> cases h3 : env.mkdirBackupOk <;>
    by_cases h5 : 0 < flags.pprofBlockRate <;>
      simp [preListenEvents, hp, h2, h3, h5]

end SleepyDrive

namespace SleepyDrive

theorem rootCmdRun_events_ok (flags : Flags) (cfg : Config) (env : BootEnv)
    (hrot : env.enableLogRotationOk = true) (hw : env.writeToDiskOk = true) :
    (rootCmdRun flags cfg env).events =
      preListenEvents flags cfg env ++ serveEvents flags cfg env := by
  simp [rootCmdRun, hrot, hw]

theorem rootCmdRun_outcome_ok (flags : Flags) (cfg : Config) (env : BootEnv)
    (hrot : env.enableLogRotationOk = true) (hw : env.writeToDiskOk = true) :
    (rootCmdRun flags cfg env).outcome =
      if env.listenOk then Outcome.serving (chosenMode flags cfg) else Outcome.fatalExit := by
  simp [rootCmdRun, hrot, hw]

theorem listenMode?_serve (flags : Flags) (cfg : Config) (env : BootEnv) :
    listenMode? (serveEvents flags cfg env) = some (chosenMode flags cfg) := by
  by_cases h : effectiveAutoTls flags = true
  · cases hl : env.listenOk <;> simp [serveEvents, chosenMode, h, hl, listenMode?]
  · simp only [Bool.not_eq_true] at h
    cases hs : cfg.api.ssl.enabled <;> cases hl : env.listenOk <;>
      simp [serveEvents, chosenMode, h, hs, hl, listenMode?]

theorem listenTLS?_serve_plain (flags : Flags) (cfg : Config) (env : BootEnv)
    (h : effectiveAutoTls flags = false) (hs : cfg.api.ssl.enabled = false) :
    listenTLS? (serveEvents flags cfg env) = some Option.none := by
  cases hl : env.listenOk <;> simp [serveEvents, h, hs, hl, listenTLS?]

theorem serve_countListen (flags : Flags) (cfg : Config) (env : BootEnv) :
    (serveEvents flags cfg env).countP (fun e => e.isListen) = 1 := by
  by_cases h : effectiveAutoTls flags = true
  · cases hl : env.listenOk <;>
      simp [serveEvents, h, hl, List.countP_cons, List.countP_append, Event.isListen]
  · simp only [Bool.not_eq_true] at h
    cases hs : cfg.api.ssl.enabled <;> cases hl : env.listenOk <;>
      simp [serveEvents, h, hs, hl, List.countP_cons, List.countP_append, Event.isListen]

theorem preListen_countListen (flags : Flags) (cfg : Config) (env : BootEnv) :
    (preListenEvents flags cfg env).countP (fun e => e.isListen) = 0 := by
  rw [List.countP_eq_zero]
  intro e he
  simp [preListen_no_listen flags cfg env e he]

end SleepyDrive

namespace SleepyDrive

theorem captureStep_break_iff (f : FrameStep) :
    (captureStep f).2 = true ↔ (f.frameEmpty = false ∧ 0 ≤ f.waitKey) := by
  cases he : f.frameEmpty <;> by_cases hw : 0 ≤ f.waitKey <;>
    cases hr : f.readOk <;> simp [captureStep, he, hw, hr]

theorem captureStep_read_fail_logs (f : FrameStep) (h : f.readOk = false) :
    Event.logError cameraErrMsg ∈ (captureStep f).1 := by
  cases he : f.frameEmpty <;> by_cases hw : 0 ≤ f.waitKey <;>
    simp [captureStep, he, hw, h]

theorem captureStep_no_fatal (f : FrameStep) :
    ∀ e ∈ (captureStep f).1, e.isFatal = false := by
  intro e he
  cases hemp : f.frameEmpty <;> by_cases hw : 0 ≤ f.waitKey <;>
    cases hr : f.readOk <;>
      simp [captureStep, hemp, hw, hr] at he <;>
        (rcases he with rfl | rfl <;> rfl)

theorem captureLoop_break_iff (frames : List FrameStep) :
    (captureLoop frames).2 = true ↔ ∃ f ∈ frames, f.frameEmpty = false ∧ 0 ≤ f.waitKey := by
  induction frames with
  | nil => simp [captureLoop]
  | cons f rest ih =>
    by_cases hb : (captureStep f).2 = true
    · simp [captureLoop, hb, (captureStep_break_iff f).mp hb]
    · simp only [Bool.not_eq_true] at hb
      have hnot : ¬(f.frameEmpty = false ∧ 0 ≤ f.waitKey) := by
        intro hc
        have := (captureStep_break_iff f).mpr hc
        simp [hb] at this
      simp only [captureLoop, hb, Bool.false_eq_true, if_false]
      constructor
      · intro h
        rcases ih.mp h with ⟨g, hg, hgp⟩
        exact ⟨g, List.mem_cons_of_mem f hg, hgp⟩
      · intro h
        rcases h with ⟨g, hg, hgp⟩
        rcases List.mem_cons.mp hg with rfl | hg'
        · exact absurd hgp hnot
        · exact ih.mpr ⟨g, hg', hgp⟩

theorem captureLoop_no_fatal (frames : List FrameStep) :
    ∀ e ∈ (captureLoop frames).1, e.isFatal = false := by
  induction frames with
  | nil => simp [captureLoop]
  | cons f rest ih =>
    intro e he
    by_cases hb : (captureStep f).2 = true
    · simp only [captureLoop, hb, if_true] at he
      exact captureStep_no_fatal f e he
    · simp only [Bool.not_eq_true] at hb
      simp only [captureLoop, hb, Bool.false_eq_true, if_false, List.mem_append] at he
      rcases he with he | he
      · exact captureStep_no_fatal f e he
      · exact ih e he

theorem captureTask_no_fatal (o : CaptureOracle) :
    ∀ e ∈ (captureTask o).events, e.isFatal = false := by
  intro e he
  cases hd : o.deviceOpenOk <;> cases hc : o.classifierLoadOk <;>
    simp [captureTask, hd, hc] at he
  · simp [he, Event.isFatal]
  · simp [he, Event.isFatal]
  · rcases he with rfl | he
    · rfl
    · exact captureLoop_no_fatal o.frames e he
  · exact captureLoop_no_fatal o.frames e he

end SleepyDrive

namespace SleepyDrive

theorem chosenMode_eq_table (flags : Flags) (cfg : Config) :
    chosenMode flags cfg =
      (if flags.autoTls = true ∧ flags.tlsHostname ≠ "" then
        ServeMode.autoTLS flags.tlsHostname
      else if cfg.api.ssl.enabled = true then
        ServeMode.manualTLS cfg.api.ssl.certificateFile cfg.api.ssl.keyFile
      else ServeMode.plain) := by
  by_cases h : flags.autoTls = true ∧ flags.tlsHostname ≠ ""
  · simp [chosenMode, (effectiveAutoTls_true_iff flags).mpr h, h]
  · have h2 : effectiveAutoTls flags = false := by
      cases he : effectiveAutoTls flags
      · rfl
      · exact absurd ((effectiveAutoTls_true_iff flags).mp he) h
    cases hs : cfg.api.ssl.enabled <;> simp [chosenMode, h2, h, hs]

/-- C1: for every combination of the auto-TLS flag, the TLS hostname and
the configuration's TLS settings, a boot that reaches the strategy branch
performs exactly one blocking listen, and its mode follows the reference
table: `Automatic` with the flag hostname when auto-TLS is requested with a
non-empty hostname (regardless of `Ssl.Enabled`), else `Manual` with the
configured certificate and key files when `Ssl.Enabled` is set, else
`None` (plain HTTP). -/
theorem boot_selects_strategy_per_table (flags : Flags) (cfg : Config) (env : BootEnv)
    (hrot : env.enableLogRotationOk = true) (hw : env.writeToDiskOk = true) :
    (listenMode? (rootCmdRun flags cfg env).events =
      some (if flags.autoTls = true ∧ flags.tlsHostname ≠ "" then
              ServeMode.autoTLS flags.tlsHostname
            else if cfg.api.ssl.enabled = true then
              ServeMode.manualTLS cfg.api.ssl.certificateFile cfg.api.ssl.keyFile
            else ServeMode.plain)) ∧
    ((rootCmdRun flags cfg env).events.countP (fun e => e.isListen) = 1) := by
  constructor
  · rw [rootCmdRun_events_ok flags cfg env hrot hw,
      listenMode?_append_skip _ _ (preListen_no_listen flags cfg env),
      listenMode?_serve, chosenMode_eq_table]
  · rw [rootCmdRun_events_ok flags cfg env hrot hw, List.countP_append,
      preListen_countListen, serve_countListen]

/-- Witness for C1 at a concrete input: manual TLS enabled, no auto-TLS
flag, every effect succeeding. -/
theorem boot_selects_strategy_per_table_witness :
    (listenMode? (rootCmdRun flagsPlain cfgSslOn envAllOk).events =
      some (if flagsPlain.autoTls = true ∧ flagsPlain.tlsHostname ≠ "" then
              ServeMode.autoTLS flagsPlain.tlsHostname
            else if cfgSslOn.api.ssl.enabled = true then
              ServeMode.manualTLS cfgSslOn.api.ssl.certificateFile cfgSslOn.api.ssl.keyFile
            else ServeMode.plain)) ∧
    ((rootCmdRun flagsPlain cfgSslOn envAllOk).events.countP (fun e => e.isListen) = 1) :=
  boot_selects_strategy_per_table flagsPlain cfgSslOn envAllOk rfl rfl

end SleepyDrive

namespace SleepyDrive

theorem not_mem_of_all_not (l : List Event) (p : Event → Bool) (x : Event)
    (hall : l.all (fun e => !p e) = true) (hx : p x = true) : x ∉ l := by
  intro hmem
  rw [List.all_eq_true] at hall
  have h := hall x hmem
  simp [hx] at h

theorem preListen_all_not_warn (flags : Flags) (cfg : Config) (env : BootEnv)
    (hic : flags.ignoreCertificateErrors = false) :
    (preListenEvents flags cfg env).all (fun e => !e.isWarn) = true := by
  cases h2 : env.mkdirArchiveOk <;> cases h3 : env.mkdirBackupOk <;> cases h4 : flags.pprof <;>
    by_cases h5 : 0 < flags.pprofBlockRate <;>
      simp [preListenEvents, earlyEvents, hic, h2, h3, h4, h5, Event.isWarn]

theorem preListen_all_not_insecure (flags : Flags) (cfg : Config) (env : BootEnv)
    (hic : flags.ignoreCertificateErrors = false) :
    (preListenEvents flags cfg env).all (fun e => !e.isSetInsecureTransport) = true := by
  cases h2 : env.mkdirArchiveOk <;> cases h3 : env.mkdirBackupOk <;> cases h4 : flags.pprof <;>
    by_cases h5 : 0 < flags.pprofBlockRate <;>
      simp [preListenEvents, earlyEvents, hic, h2, h3, h4, h5, Event.isSetInsecureTransport]

theorem serve_all_not_warn (flags : Flags) (cfg : Config) (env : BootEnv) :
    (serveEvents flags cfg env).all (fun e => !e.isWarn) = true := by
  by_cases h : effectiveAutoTls flags = true
  · cases hl : env.listenOk <;> simp [serveEvents, h, hl, Event.isWarn]
  · simp only [Bool.not_eq_true] at h
    cases hs : cfg.api.ssl.enabled <;> cases hl : env.listenOk <;>
      simp [serveEvents, h, hs, hl, Event.isWarn]

theorem serve_all_not_insecure (flags : Flags) (cfg : Config) (env : BootEnv) :
    (serveEvents flags cfg env).all (fun e => !e.isSetInsecureTransport) = true := by
  by_cases h : effectiveAutoTls flags = true
  · cases hl : env.listenOk <;> simp [serveEvents, h, hl, Event.isSetInsecureTransport]
  · simp only [Bool.not_eq_true] at h
    cases hs : cfg.api.ssl.enabled <;> cases hl : env.listenOk <;>
      simp [serveEvents, h, hs, hl, Event.isSetInsecureTransport]

theorem effectiveAutoTls_false_of_empty (flags : Flags)
    (ha : flags.autoTls = true) (hh : flags.tlsHostname = "") :
    effectiveAutoTls flags = false := by
  simp [effectiveAutoTls, ha, hh]

/-- Counterexample to C2 as stated: at the concrete input `auto-tls` set,
empty hostname and `Ssl.Enabled = true`, the boot blocks in the Manual
strategy (not None) and the whole main-path trace contains no warning. -/
theorem autoTls_fallback_counterexample :
    (listenMode? (rootCmdRun flagsAutoNoHost cfgSslOn envAllOk).events =
      some (ServeMode.manualTLS "/etc/certs/node.crt" "/etc/certs/node.key")) ∧
    ((rootCmdRun flagsAutoNoHost cfgSslOn envAllOk).events.all (fun e => !e.isWarn) = true) :=
  ⟨rfl, rfl⟩

/-- C2 (amended): when auto-TLS is requested with an empty hostname, the
request is silently downgraded — no warning of any kind is emitted on the
main path (given the unrelated insecure-transport warning flag is off) —
and selection falls through to the remaining branches: the strategy is
Manual when `Ssl.Enabled` is set and None otherwise, never Automatic. -/
theorem autoTls_empty_hostname_downgrade (flags : Flags) (cfg : Config) (env : BootEnv)
    (hrot : env.enableLogRotationOk = true) (hw : env.writeToDiskOk = true)
    (ha : flags.autoTls = true) (hh : flags.tlsHostname = "")
    (hic : flags.ignoreCertificateErrors = false) :
    (listenMode? (rootCmdRun flags cfg env).events =
      some (if cfg.api.ssl.enabled = true then
              ServeMode.manualTLS cfg.api.ssl.certificateFile cfg.api.ssl.keyFile
            else ServeMode.plain)) ∧
    (∀ m : String, Event.warn m ∉ (rootCmdRun flags cfg env).events) := by
  have heff := effectiveAutoTls_false_of_empty flags ha hh
  constructor
  · rw [rootCmdRun_events_ok flags cfg env hrot hw,
      listenMode?_append_skip _ _ (preListen_no_listen flags cfg env),
      listenMode?_serve]
    cases hs : cfg.api.ssl.enabled <;> simp [chosenMode, heff, hs]
  · intro m
    rw [rootCmdRun_events_ok flags cfg env hrot hw]
    intro hmem
    rcases List.mem_append.mp hmem with hmem | hmem
    · exact not_mem_of_all_not _ Event.isWarn (Event.warn m)
        (preListen_all_not_warn flags cfg env hic) rfl hmem
    · exact not_mem_of_all_not _ Event.isWarn (Event.warn m)
        (serve_all_not_warn flags cfg env) rfl hmem

/-- Witness for C2 (amended) at a concrete input: `auto-tls` set, empty
hostname, manual TLS disabled; the strategy is None and no warning is
emitted. -/
theorem autoTls_empty_hostname_downgrade_witness :
    (listenMode? (rootCmdRun flagsAutoNoHost cfgSslOff envAllOk).events =
      some (if cfgSslOff.api.ssl.enabled = true then
              ServeMode.manualTLS cfgSslOff.api.ssl.certificateFile cfgSslOff.api.ssl.keyFile
            else ServeMode.plain)) ∧
    (∀ m : String, Event.warn m ∉ (rootCmdRun flagsAutoNoHost cfgSslOff envAllOk).events) :=
  autoTls_empty_hostname_downgrade flagsAutoNoHost cfgSslOff envAllOk rfl rfl rfl rfl rfl

end SleepyDrive

namespace SleepyDrive

/-- Counterexample to C3 as stated: under the Automatic strategy (auto-TLS
with a hostname, profiler enabled) the boot reaches the blocking auto-TLS
listen without ever spawning the capture goroutine. -/
theorem capture_never_started_under_autoTls_counterexample :
    ((rootCmdRun flagsAutoHost cfgSslOff envAllOk).events.all
      (fun e => !e.isSpawnCapture) = true) ∧
    (listenMode? (rootCmdRun flagsAutoHost cfgSslOff envAllOk).events =
      some (ServeMode.autoTLS "example.com")) :=
  ⟨rfl, rfl⟩

/-- C3 (amended): under the Manual and None strategies both supervisors are
started before the blocking listen call — the capture goroutine always, the
profiler goroutine when `pprof` is set; under the Automatic strategy only
the profiler (when enabled) starts before the listen call, and the capture
goroutine is never spawned at all. -/
theorem supervisors_start_before_listen (flags : Flags) (cfg : Config) (env : BootEnv)
    (hrot : env.enableLogRotationOk = true) (hw : env.writeToDiskOk = true) :
    ((effectiveAutoTls flags = false →
        startedBeforeListen Event.isSpawnCapture (rootCmdRun flags cfg env).events = true) ∧
     (effectiveAutoTls flags = true →
        (rootCmdRun flags cfg env).events.all (fun e => !e.isSpawnCapture) = true) ∧
     (flags.pprof = true →
        startedBeforeListen Event.isSpawnProfiler (rootCmdRun flags cfg env).events = true) ∧
     ((listenMode? (rootCmdRun flags cfg env).events).isSome = true)) := by
  rw [rootCmdRun_events_ok flags cfg env hrot hw]
  refine ⟨?_, ?_, ?_, ?_⟩
  · intro heff
    rw [startedBeforeListen_append_skip _ _ _ (preListen_no_listen flags cfg env)
      (preListen_no_capture flags cfg env)]
    cases hs : cfg.api.ssl.enabled <;> cases hl : env.listenOk <;>
      simp [serveEvents, heff, hs, hl, startedBeforeListen,
        Event.isListen, Event.isSpawnCapture]
  · intro heff
    rw [List.all_append]
    have h2 : (serveEvents flags cfg env).all (fun e => !e.isSpawnCapture) = true := by
      cases hl : env.listenOk <;> simp [serveEvents, heff, hl, Event.isSpawnCapture]
    have h1 : (preListenEvents flags cfg env).all (fun e => !e.isSpawnCapture) = true := by
      rw [List.all_eq_true]
      intro e he
      simp [preListen_no_capture flags cfg env e he]
    rw [h1, h2]
    rfl
  · intro hp
    exact startedBeforeListen_append_found _ _ _ (preListen_no_listen flags cfg env)
      ⟨Event.spawnProfiler flags.pprofPort, preListen_spawnProfiler_mem flags cfg env hp, rfl⟩
  · rw [listenMode?_append_skip _ _ (preListen_no_listen flags cfg env), listenMode?_serve]
    rfl

/-- Witness for C3 (amended) at a concrete input: profiler enabled, no
auto-TLS, manual TLS disabled. -/
theorem supervisors_start_before_listen_witness :
    ((effectiveAutoTls flagsPprof = false →
        startedBeforeListen Event.isSpawnCapture
          (rootCmdRun flagsPprof cfgSslOff envAllOk).events = true) ∧
     (effectiveAutoTls flagsPprof = true →
        (rootCmdRun flagsPprof cfgSslOff envAllOk).events.all
          (fun e => !e.isSpawnCapture) = true) ∧
     (flagsPprof.pprof = true →
        startedBeforeListen Event.isSpawnProfiler
          (rootCmdRun flagsPprof cfgSslOff envAllOk).events = true) ∧
     ((listenMode? (rootCmdRun flagsPprof cfgSslOff envAllOk).events).isSome = true)) :=
  supervisors_start_before_listen flagsPprof cfgSslOff envAllOk rfl rfl

end SleepyDrive

namespace SleepyDrive

/-- Counterexample to C4 as stated: a log-rotation-enablement failure —
neither a configuration-load error nor a listener bind/serve error (the
listener oracle succeeds here) — terminates the boot fatally, and no listen
is ever reached. -/
theorem rotation_failure_fatal_counterexample :
    ((rootCmdRun flagsPlain cfgSslOff envRotFail).outcome = Outcome.fatalExit) ∧
    (listenMode? (rootCmdRun flagsPlain cfgSslOff envRotFail).events = none) ∧
    (envRotFail.listenOk = true) :=
  ⟨rfl, rfl, rfl⟩

/-- C4 (amended): after the configuration is loaded, the fatal steps of the
boot sequence are exactly log-rotation enablement, the configuration
write-back and the listener bind/serve; directory-creation failures (and
the best-effort subsystems) log and continue, and when the three fatal
steps succeed the boot always reaches the blocking listen. -/
theorem boot_fatal_steps_characterization (flags : Flags) (cfg : Config) (env : BootEnv) :
    (((rootCmdRun flags cfg env).outcome = Outcome.fatalExit) ↔
      (env.enableLogRotationOk = false ∨ env.writeToDiskOk = false ∨ env.listenOk = false)) ∧
    ((env.enableLogRotationOk = true → env.writeToDiskOk = true →
      (listenMode? (rootCmdRun flags cfg env).events).isSome = true)) := by
  constructor
  · cases hrot : env.enableLogRotationOk <;> cases hw : env.writeToDiskOk <;>
      cases hl : env.listenOk <;> simp [rootCmdRun, hrot, hw, hl]
  · intro hrot hw
    rw [rootCmdRun_events_ok flags cfg env hrot hw,
      listenMode?_append_skip _ _ (preListen_no_listen flags cfg env), listenMode?_serve]
    rfl

/-- Counterexample to C5 as stated: a failed bind of the profiler
diagnostics endpoint makes the goroutine return early, yet nothing is
logged — the error is discarded. -/
theorem profiler_bind_failure_unlogged_counterexample :
    ((profilerTask 6060 false).exitedEarly = true) ∧
    ((profilerTask 6060 false).events = []) :=
  ⟨rfl, rfl⟩

/-- C5 (amended): failures of the best-effort subsystems never escalate to
the main flow and never terminate the process, and the capture-side
failures (device open, classifier model, per-frame read) are logged; the
profiler bind failure, however, is silently discarded without a log line.
The boot outcome is invariant under every value of the profiler, challenge
and capture oracles. -/
theorem best_effort_failures_contained :
    (∀ port : Nat,
      (profilerTask port false).events = [] ∧ (profilerTask port false).exitedEarly = true) ∧
    (∀ o : CaptureOracle,
      (o.deviceOpenOk = false → Event.logError deviceErrMsg ∈ (captureTask o).events) ∧
      (o.deviceOpenOk = true → o.classifierLoadOk = false →
        Event.logError classifierErrMsg ∈ (captureTask o).events) ∧
      (∀ e ∈ (captureTask o).events, e.isFatal = false)) ∧
    (∀ f : FrameStep,
      f.readOk = false → Event.logError cameraErrMsg ∈ (captureStep f).1) ∧
    (∀ (flags : Flags) (cfg : Config) (env : BootEnv)
        (pbo cbo : Bool) (co : CaptureOracle),
      (rootCmdRun flags cfg
        { env with profilerBindOk := pbo, challengeBindOk := cbo, capture := co }).outcome =
      (rootCmdRun flags cfg env).outcome) := by
  refine ⟨?_, ?_, ?_, ?_⟩
  · intro port
    exact ⟨rfl, rfl⟩
  · intro o
    refine ⟨?_, ?_, captureTask_no_fatal o⟩
    · intro hd
      simp [captureTask, hd]
    · intro hd hc
      simp [captureTask, hd, hc]
  · intro f hr
    exact captureStep_read_fail_logs f hr
  · intro flags cfg env pbo cbo co
    cases hrot : env.enableLogRotationOk <;> cases hw : env.writeToDiskOk <;>
      simp [rootCmdRun, hrot, hw]

end SleepyDrive

namespace SleepyDrive

/-- C6: whenever the selected strategy is None, the `TLSConfig` presented
to the listener is explicitly cleared to nil before the plaintext bind —
for every initial `DefaultTLSConfig`, including ones already carrying a
certificate callback or ALPN protocols — so the listener sees no
certificate callback and no ALPN additions, and the listen is plain. -/
theorem plain_strategy_clears_tls (flags : Flags) (cfg : Config) (env : BootEnv)
    (hrot : env.enableLogRotationOk = true) (hw : env.writeToDiskOk = true)
    (hmode : chosenMode flags cfg = ServeMode.plain) :
    (listenTLS? (rootCmdRun flags cfg env).events = some Option.none) ∧
    (listenMode? (rootCmdRun flags cfg env).events = some ServeMode.plain) := by
  have hauto : effectiveAutoTls flags = false := by
    cases h : effectiveAutoTls flags
    · rfl
    · simp [chosenMode, h] at hmode
  have hssl : cfg.api.ssl.enabled = false := by
    cases h : cfg.api.ssl.enabled
    · rfl
    · simp [chosenMode, hauto, h] at hmode
  constructor
  · rw [rootCmdRun_events_ok flags cfg env hrot hw,
      listenTLS?_append_skip _ _ (preListen_no_listen flags cfg env),
      listenTLS?_serve_plain flags cfg env hauto hssl]
  · rw [rootCmdRun_events_ok flags cfg env hrot hw,
      listenMode?_append_skip _ _ (preListen_no_listen flags cfg env),
      listenMode?_serve, hmode]

/-- Witness for C6 at a concrete input whose initial `DefaultTLSConfig`
already has a certificate callback and a non-empty ALPN list: the plain
path still presents a nil `TLSConfig`. -/
theorem plain_strategy_clears_tls_witness :
    (listenTLS? (rootCmdRun flagsPlain cfgSslOff envDirtyTLS).events = some Option.none) ∧
    (listenMode? (rootCmdRun flagsPlain cfgSslOff envDirtyTLS).events = some ServeMode.plain) :=
  plain_strategy_clears_tls flagsPlain cfgSslOff envDirtyTLS rfl rfl rfl

/-- C7: the Directory Provisioner attempts the archive directory and the
backup directory independently — both creation attempts appear in every
boot that reaches them, a failure of either is logged as an error, and the
boot still reaches the blocking listen whatever the two outcomes are. -/
theorem directory_provisioning_independent (flags : Flags) (cfg : Config) (env : BootEnv)
    (hrot : env.enableLogRotationOk = true) (hw : env.writeToDiskOk = true) :
    (Event.mkdirArchive cfg.system.archiveDirectory ∈ (rootCmdRun flags cfg env).events) ∧
    (Event.mkdirBackup cfg.system.backupDirectory ∈ (rootCmdRun flags cfg env).events) ∧
    (env.mkdirArchiveOk = false →
      Event.logError archiveErrMsg ∈ (rootCmdRun flags cfg env).events) ∧
    (env.mkdirBackupOk = false →
      Event.logError backupErrMsg ∈ (rootCmdRun flags cfg env).events) ∧
    ((listenMode? (rootCmdRun flags cfg env).events).isSome = true) := by
  rw [rootCmdRun_events_ok flags cfg env hrot hw]
  refine ⟨?_, ?_, ?_, ?_, ?_⟩
  · simp [preListenEvents]
  · simp [preListenEvents]
  · intro h
    simp [preListenEvents, h]
  · intro h
    simp [preListenEvents, h]
  · rw [listenMode?_append_skip _ _ (preListen_no_listen flags cfg env), listenMode?_serve]
    rfl

/-- Witness for C7 at a concrete input in which both directory creations
fail: both attempts and both error logs appear, and the listen is reached. -/
theorem directory_provisioning_independent_witness :
    (Event.mkdirArchive cfgSslOff.system.archiveDirectory ∈
      (rootCmdRun flagsPlain cfgSslOff envMkdirFail).events) ∧
    (Event.mkdirBackup cfgSslOff.system.backupDirectory ∈
      (rootCmdRun flagsPlain cfgSslOff envMkdirFail).events) ∧
    (envMkdirFail.mkdirArchiveOk = false →
      Event.logError archiveErrMsg ∈ (rootCmdRun flagsPlain cfgSslOff envMkdirFail).events) ∧
    (envMkdirFail.mkdirBackupOk = false →
      Event.logError backupErrMsg ∈ (rootCmdRun flagsPlain cfgSslOff envMkdirFail).events) ∧
    ((listenMode? (rootCmdRun flagsPlain cfgSslOff envMkdirFail).events).isSome = true) :=
  directory_provisioning_independent flagsPlain cfgSslOff envMkdirFail rfl rfl

end SleepyDrive

namespace SleepyDrive

/-- C8: when `auto-tls` is set and the hostname flag is absent or empty,
the pre-run validation (after a successful configuration load and logging
setup) prints the usage message and exits with status 1; the invocation
trace contains no main-listener bind, no profiler or challenge-responder
bind, and no Directory Provisioner creation of the archive or backup
directory. -/
theorem autoTls_usage_exit (flags : Flags) (pe : PreRunEnv) (cfg : Config) (env : BootEnv)
    (hload : pe.configLoad = ConfigLoadResult.ok)
    (hmk : pe.mkdirInstallOk = true) (hlf : pe.logFileOk = true)
    (ha : flags.autoTls = true) (hh : flags.tlsHostname = "") :
    ((runInvocation flags pe cfg env).1 = InvocationOutcome.exitedUsage) ∧
    (exitCode (runInvocation flags pe cfg env).1 = some 1) ∧
    (Event.printUsage ∈ (runInvocation flags pe cfg env).2) ∧
    ((runInvocation flags pe cfg env).2.all (fun e => !e.isBindOrProvision) = true) ∧
    ((runInvocation flags pe cfg env).2.countP (fun e => e.isListen) = 0) := by
  have hcond : (flags.autoTls && flags.tlsHostname == "") = true := by
    rw [ha, hh]
    rfl
  refine ⟨?_, ?_, ?_, ?_, ?_⟩ <;>
    simp [runInvocation, hload, hmk, hlf, hcond, exitCode,
      Event.isBindOrProvision, Event.isListen, List.countP_cons]

/-- Witness for C8 at a concrete input: `auto-tls` set with the hostname
left at its default empty value. -/
theorem autoTls_usage_exit_witness :
    ((runInvocation flagsAutoNoHost preOk cfgSslOff envAllOk).1 =
      InvocationOutcome.exitedUsage) ∧
    (exitCode (runInvocation flagsAutoNoHost preOk cfgSslOff envAllOk).1 = some 1) ∧
    (Event.printUsage ∈ (runInvocation flagsAutoNoHost preOk cfgSslOff envAllOk).2) ∧
    ((runInvocation flagsAutoNoHost preOk cfgSslOff envAllOk).2.all
      (fun e => !e.isBindOrProvision) = true) ∧
    ((runInvocation flagsAutoNoHost preOk cfgSslOff envAllOk).2.countP
      (fun e => e.isListen) = 0) :=
  autoTls_usage_exit flagsAutoNoHost preOk cfgSslOff envAllOk rfl rfl rfl rfl rfl

/-- C9: the capture frame loop breaks exactly when an iteration presents a
non-empty frame together with a non-negative `WaitKey` result (the user
interrupt); a failed frame read is logged and never breaks the loop, an
empty frame is skipped without breaking the loop, and once the device is
open the goroutine ends in `userInterrupt` exactly under that same
condition (otherwise it is still running when the process ends). -/
theorem capture_loop_exit_only_on_interrupt :
    (∀ frames : List FrameStep,
      ((captureLoop frames).2 = true ↔
        ∃ f ∈ frames, f.frameEmpty = false ∧ 0 ≤ f.waitKey)) ∧
    (∀ f : FrameStep,
      ((captureStep f).2 = true ↔ (f.frameEmpty = false ∧ 0 ≤ f.waitKey))) ∧
    (∀ f : FrameStep,
      f.readOk = false → Event.logError cameraErrMsg ∈ (captureStep f).1) ∧
    (∀ o : CaptureOracle, o.deviceOpenOk = true →
      ((captureTask o).exit = CaptureExit.userInterrupt ↔
        ∃ f ∈ o.frames, f.frameEmpty = false ∧ 0 ≤ f.waitKey)) := by
  refine ⟨captureLoop_break_iff, captureStep_break_iff, captureStep_read_fail_logs, ?_⟩
  intro o hd
  have h1 : (captureTask o).exit = CaptureExit.userInterrupt ↔
      (captureLoop o.frames).2 = true := by
    cases hb : (captureLoop o.frames).2 <;> simp [captureTask, hd, hb]
  exact h1.trans (captureLoop_break_iff o.frames)

theorem rootCmdRun_transport_eq (flags : Flags) (cfg : Config) (env : BootEnv) :
    (rootCmdRun flags cfg env).transport = transportAfterFlags flags := by
  cases hrot : env.enableLogRotationOk <;> cases hw : env.writeToDiskOk <;>
    simp [rootCmdRun, hrot, hw]

/-- C10: the process-wide default transport ends up skipping certificate
verification exactly when `ignore-certificate-errors` is set; when set, a
warning is logged and the transport mutation happens on the main path
before anything else; when unset, the default transport keeps normal
verification and is never mutated. -/
theorem ignore_cert_errors_behavior (flags : Flags) (cfg : Config) (env : BootEnv) :
    ((rootCmdRun flags cfg env).transport.insecureSkipVerify =
      flags.ignoreCertificateErrors) ∧
    ((flags.ignoreCertificateErrors = true →
        Event.warn insecureWarnMsg ∈ (rootCmdRun flags cfg env).events ∧
        Event.setInsecureTransport ∈ (rootCmdRun flags cfg env).events)) ∧
    ((flags.ignoreCertificateErrors = false →
        ((rootCmdRun flags cfg env).transport = { insecureSkipVerify := false } ∧
         Event.setInsecureTransport ∉ (rootCmdRun flags cfg env).events))) := by
  refine ⟨?_, ?_, ?_⟩
  · rw [rootCmdRun_transport_eq]
    cases hic : flags.ignoreCertificateErrors <;> simp [transportAfterFlags, hic]
  · intro hic
    constructor <;>
      (cases hrot : env.enableLogRotationOk <;> cases hw : env.writeToDiskOk <;>
        simp [rootCmdRun, hrot, hw, preListenEvents, earlyEvents, hic])
  · intro hic
    refine ⟨?_, ?_⟩
    · rw [rootCmdRun_transport_eq]
      simp [transportAfterFlags, hic]
    · intro hmem
      cases hrot : env.enableLogRotationOk
      · simp [rootCmdRun, hrot, earlyEvents, hic] at hmem
      · cases hw : env.writeToDiskOk
        · simp [rootCmdRun, hrot, hw, earlyEvents, hic] at hmem
        · rw [rootCmdRun_events_ok flags cfg env hrot hw] at hmem
          rcases List.mem_append.mp hmem with h | h
          · exact not_mem_of_all_not _ Event.isSetInsecureTransport Event.setInsecureTransport
              (preListen_all_not_insecure flags cfg env hic) rfl h
          · exact not_mem_of_all_not _ Event.isSetInsecureTransport Event.setInsecureTransport
              (serve_all_not_insecure flags cfg env) rfl h

end SleepyDrive
